import Mathlib

/-!
Verification development for the gpudrive batched traffic simulator.

The repository ships the simulator core as an external build
(madrona_gpudrive); the files present are the tutorial notebook
(examples/tutorials/02_simulator_demo.ipynb), which records the exported
tensor shapes and the default Parameters values, a PPO training
configuration, and build notes.  The engine itself (entity state store,
dynamics integrator, collision detector, observation builder, reward
engine, road-graph simplifier, world stepper) is therefore modelled here
from the specification, with doc comments marking each modelled piece.
Numeric state is modelled over the real numbers (the engine uses
floating point); the road-graph simplifier, a load-time algorithm with
only comparisons and field arithmetic, is modelled over the rationals so
that it stays executable.
-/

namespace GpuDrive

/-- Modelled from the spec: the closed tagged-variant enumeration of entity
types listed in the notebook (road types RoadEdge, RoadLine, RoadLane,
CrossWalk, SpeedBump, StopSign; agent types Vehicle, Pedestrian, Cyclist;
and the two sentinel types).  `Padding` marks capacity-filling entries and
`NoneType` (called None in the notebook) marks invalid entries such as
out-of-radius or removed entities. -/
inductive EntityType where
  | Vehicle
  | Pedestrian
  | Cyclist
  | RoadEdge
  | RoadLine
  | RoadLane
  | CrossWalk
  | SpeedBump
  | StopSign
  | Padding
  | NoneType
  deriving DecidableEq, Repr

/-- Modelled from the spec: the collision policy enumeration
(Ignore, AgentStop, AgentRemoved); the enum itself is in the missing
madrona_gpudrive module, its three values are listed in the notebook. -/
inductive CollisionBehaviour where
  | Ignore
  | AgentStop
  | AgentRemoved
  deriving DecidableEq, Repr

/-- Modelled from the spec: the dynamics model selector of the missing
madrona_gpudrive module; `Classic` (the default kinematic bicycle model)
is the only variant named in the available sources. -/
inductive DynamicsModel where
  | Classic
  deriving DecidableEq, Repr

/-- Modelled from the spec: the reward scheme enumeration of the missing
madrona_gpudrive module; the notebook lists exactly the three values
DistanceBased, OnGoalAchieved and Dense. -/
inductive RewardType where
  | DistanceBased
  | OnGoalAchieved
  | Dense
  deriving DecidableEq, Repr

/-- Modelled from the spec: the road-observation search algorithm selector
of the missing madrona_gpudrive module. -/
inductive FindRoadObservationsWith where
  | KNearestEntitiesWithRadiusFiltering
  | AllEntitiesWithRadiusFiltering
  deriving DecidableEq, Repr

/-- Modelled from the spec: the RewardParams value object of the missing
madrona_gpudrive module (reward scheme plus the two thresholds). -/
structure RewardParams where
  rewardType : RewardType
  distanceToGoalThreshold : ℝ
  distanceToExpertThreshold : ℝ

/-- Modelled from the spec: the Parameters configuration value object of
the missing madrona_gpudrive module, with the attribute list recorded by
the notebook cell that prints a default-constructed Parameters object. -/
structure Parameters where
  IgnoreNonVehicles : Bool
  collisionBehaviour : CollisionBehaviour
  disableClassicalObs : Bool
  dynamicsModel : DynamicsModel
  enableLidar : Bool
  initOnlyValidAgentsAtFirstStep : Bool
  isStaticAgentControlled : Bool
  maxNumControlledAgents : Nat
  observationRadius : ℝ
  polylineReductionThreshold : ℚ
  readFromTracksToPredict : Bool
  rewardParams : RewardParams
  roadObservationAlgorithm : FindRoadObservationsWith

/-- Modelled from the spec: the default RewardParams values recorded in
the notebook output (rewardType DistanceBased, both thresholds 0.0). -/
def defaultRewardParams : RewardParams :=
  { rewardType := RewardType.DistanceBased
    distanceToGoalThreshold := 0
    distanceToExpertThreshold := 0 }

/-- Modelled from the spec: the default-constructed Parameters object,
field by field as printed by the notebook cell inspecting the simulator
settings. -/
def defaultParameters : Parameters :=
  { IgnoreNonVehicles := false
    collisionBehaviour := CollisionBehaviour.AgentStop
    disableClassicalObs := false
    dynamicsModel := DynamicsModel.Classic
    enableLidar := false
    initOnlyValidAgentsAtFirstStep := true
    isStaticAgentControlled := false
    maxNumControlledAgents := 10000
    observationRadius := 0
    polylineReductionThreshold := 0
    readFromTracksToPredict := false
    rewardParams := defaultRewardParams
    roadObservationAlgorithm :=
      FindRoadObservationsWith.KNearestEntitiesWithRadiusFiltering }

/-- A two-dimensional position, over the reals. -/
structure Vec2 where
  x : ℝ
  y : ℝ

/-- Modelled from the spec: one recorded (position, heading, speed) entry
of an ExpertTrajectory of the missing engine core. -/
structure TrajEntry where
  pos : Vec2
  heading : ℝ
  speed : ℝ

/-- Modelled from the spec: an action tuple of the default bicycle
dynamics model (acceleration, steering angle, heading angle), as listed
in the notebook action-space section. -/
structure Action where
  acceleration : ℝ
  steering : ℝ
  headingAngle : ℝ

/-- Modelled from the spec: the per-agent mutable state of the missing
entity state store, with the attributes of the data model (position,
heading, speed, dimensions, type, goal, validity, controllability,
collision and done flags) plus the agent ExpertTrajectory used by the
replay path. -/
structure Agent where
  pos : Vec2
  heading : ℝ
  speed : ℝ
  length : ℝ
  width : ℝ
  type : EntityType
  goal : Vec2
  valid : Bool
  controlled : Bool
  collided : Bool
  done : Bool
  traj : List TrajEntry

/-- Modelled from the spec: a RoadObject (simplified polyline segment or
point feature) of the missing engine core, immutable after Scene load. -/
structure RoadObject where
  pos : Vec2
  scaleLength : ℝ
  scaleWidth : ℝ
  scaleHeight : ℝ
  heading : ℝ
  type : EntityType
  roadId : Int

/-- Modelled from the spec: one World (independent scenario instance) of
the missing engine core: its Agent set, its RoadObject set and its step
counter. -/
structure World where
  agents : List Agent
  roads : List RoadObject
  steps : Nat

/-- Modelled from the spec: a Scene, the static read-only description a
World is initialized from (initial Agent states including trajectories,
and the RoadObject set). -/
structure Scene where
  initAgents : List Agent
  initRoads : List RoadObject

/-- Modelled from the spec: a simulator instance owning one Scene and one
World per world index. -/
structure Sim where
  scenes : List Scene
  worlds : List World

/-- Modelled from the spec: world construction and reset reload the
initial Agent and RoadObject state from the Scene and zero the step
counter. -/
def initWorld (sc : Scene) : World :=
  { agents := sc.initAgents, roads := sc.initRoads, steps := 0 }

/- ### List helpers used by the per-index phases -/

/-- Map a function that also receives the element index, starting the
index count at `n`. -/
def mapWithIndexFrom (f : Nat → α → β) : Nat → List α → List β
  | _, [] => []
  | n, a :: l => f n a :: mapWithIndexFrom f (n + 1) l

theorem mapWithIndexFrom_length (f : Nat → α → β) (n : Nat) (l : List α) :
    (mapWithIndexFrom f n l).length = l.length := by
  induction l generalizing n with
  | nil => rfl
  | cons a l ih => simp [mapWithIndexFrom, ih]

theorem mapWithIndexFrom_get? (f : Nat → α → β) (n i : Nat) (l : List α) :
    (mapWithIndexFrom f n l).get? i = (l.get? i).map (f (n + i)) := by
  induction l generalizing n i with
  | nil => simp [mapWithIndexFrom]
  | cons a l ih =>
    cases i with
    | zero => simp [mapWithIndexFrom]
    | succ j =>
      simp only [mapWithIndexFrom, List.get?]
      rw [ih (n + 1) j]
      have h2 : n + 1 + j = n + (j + 1) := by omega
      rw [h2]

theorem listSet_get?_self (l : List α) (i : Nat) (b : α) (h : i < l.length) :
    (l.set i b).get? i = some b := by
  induction l generalizing i with
  | nil => simp at h
  | cons a l ih =>
    cases i with
    | zero => rfl
    | succ j =>
      simp only [List.set, List.get?]
      exact ih j (by simpa using h)

theorem listSet_get?_ne (l : List α) (i j : Nat) (b : α) (h : j ≠ i) :
    (l.set i b).get? j = l.get? j := by
  induction l generalizing i j with
  | nil => rfl
  | cons a l ih =>
    cases i with
    | zero =>
      cases j with
      | zero => exact absurd rfl h
      | succ k => rfl
    | succ i2 =>
      cases j with
      | zero => rfl
      | succ k =>
        simp only [List.set, List.get?]
        exact ih i2 k (by omega)

/- ### Dynamics integrator -/

/-- Modelled from the spec: the fixed simulation timestep of the missing
engine core; its concrete value is not stated in the available sources. -/
noncomputable def simDt : ℝ := 1 / 10

/-- Modelled from the spec: model-defined acceleration bound used for
action clamping; the concrete value is not stated in the sources. -/
def maxAccel : ℝ := 6

/-- Modelled from the spec: model-defined steering bound used for action
clamping; the concrete value is not stated in the sources. -/
def maxSteer : ℝ := 3

/-- Modelled from the spec: model-defined speed bound used for clamping;
the concrete value is not stated in the sources. -/
def maxSpeed : ℝ := 100

/-- Saturating clamp of a value to the interval from `lo` to `hi`;
out-of-range inputs do not error but are saturated. -/
noncomputable def clampR (lo hi x : ℝ) : ℝ := max lo (min hi x)

/-- The all-zero action tuple. -/
def zeroAction : Action := { acceleration := 0, steering := 0, headingAngle := 0 }

/-- Modelled from the spec: one forward-Euler update of the default
kinematic bicycle model of the missing dynamics integrator: clamp the
action components, integrate speed, then heading, then position over the
fixed timestep.  The heading input of the action tuple is unused by the
Classic model. -/
noncomputable def kinematicStep (u : Action) (a : Agent) : Agent :=
  let acc := clampR (-maxAccel) maxAccel u.acceleration
  let st := clampR (-maxSteer) maxSteer u.steering
  let sp := clampR (-maxSpeed) maxSpeed (a.speed + acc * simDt)
  let hd := a.heading + sp * Real.tan st * simDt / a.length
  { a with
    speed := sp
    heading := hd
    pos := { x := a.pos.x + sp * Real.cos hd * simDt
             y := a.pos.y + sp * Real.sin hd * simDt } }

/-- Modelled from the spec: the replay path of the missing dynamics
integrator; overwrite position, heading and speed from the matching
timestep of the agent ExpertTrajectory, and freeze the agent when its
step index exceeds the trajectory length. -/
def replayStep (t : Nat) (a : Agent) : Agent :=
  match a.traj.get? t with
  | some e => { a with pos := e.pos, heading := e.heading, speed := e.speed }
  | none => a

open Classical in
/-- Modelled from the spec: the per-agent dispatch of the missing
dynamics integrator.  An invalid agent is skipped with state frozen.  A
controlled agent given an action (or, lacking one, when
isStaticAgentControlled enables control) takes the kinematic path, which
freezes an agent stopped by a collision under the AgentStop policy; all
other agents take the replay path. -/
noncomputable def integrateAgent (pr : Parameters) (t : Nat)
    (act : Option Action) (a : Agent) : Agent :=
  if a.valid = false then a
  else if a.controlled = true ∧
      (act.isSome = true ∨ pr.isStaticAgentControlled = true) then
    (if pr.collisionBehaviour = CollisionBehaviour.AgentStop ∧
        a.collided = true then a
     else kinematicStep (act.getD zeroAction) a)
  else replayStep t a

/-- Modelled from the spec: the integration phase applied to every agent
of one world, action slots matched by index. -/
noncomputable def integratePhase (pr : Parameters) (t : Nat)
    (acts : List (Option Action)) (agents : List Agent) : List Agent :=
  mapWithIndexFrom (fun i a => integrateAgent pr t ((acts.get? i).getD none) a)
    0 agents

/- ### Collision detector -/

/-- Squared Euclidean distance between two positions. -/
noncomputable def distSqR (p q : Vec2) : ℝ := (p.x - q.x) ^ 2 + (p.y - q.y) ^ 2

/-- Modelled from the spec: the agent bounding-shape overlap test of the
missing collision detector; the precise bounding geometry is not stated
in the sources, modelled here as a bounding-circle overlap on agent
lengths. -/
def overlapsAg (a b : Agent) : Prop :=
  distSqR a.pos b.pos ≤ ((a.length + b.length) / 2) ^ 2

/-- Modelled from the spec: the agent-to-road-edge overlap test of the
missing collision detector, in the same bounding-circle model. -/
def overlapsRoad (a : Agent) (r : RoadObject) : Prop :=
  r.type = EntityType.RoadEdge ∧
    distSqR a.pos r.pos ≤ ((a.length + r.scaleLength) / 2) ^ 2

/-- Index `j` of the agent list holds a valid agent. -/
def validAt (agents : List Agent) (j : Nat) : Prop :=
  ∃ b, agents.get? j = some b ∧ b.valid = true

/-- Modelled from the spec: the pair (i, j) is subjected to an
agent-to-agent collision check; only distinct pairs of valid agents are
checked. -/
def checkedPair (agents : List Agent) (i j : Nat) : Prop :=
  i ≠ j ∧ validAt agents i ∧ validAt agents j

/-- Modelled from the spec: agent `i` is detected as colliding this step,
either with another valid agent on a checked pair or with a road edge;
invalid agents are excluded from all checks. -/
def collidesNow (roads : List RoadObject) (agents : List Agent) (i : Nat) : Prop :=
  (∃ j a b, checkedPair agents i j ∧ agents.get? i = some a ∧
      agents.get? j = some b ∧ overlapsAg a b) ∨
  (∃ a r, validAt agents i ∧ agents.get? i = some a ∧ r ∈ roads ∧
      overlapsRoad a r)

/-- Modelled from the spec: the effect of the configured collision policy
on a detected colliding agent: Ignore only sets the collision flag,
AgentStop also forces speed to zero, AgentRemoved also clears the
validity flag. -/
def applyPolicy (pr : Parameters) (a : Agent) : Agent :=
  match pr.collisionBehaviour with
  | CollisionBehaviour.Ignore => { a with collided := true }
  | CollisionBehaviour.AgentStop => { a with collided := true, speed := 0 }
  | CollisionBehaviour.AgentRemoved =>
      { a with collided := true, valid := false }

open Classical in
/-- Modelled from the spec: the collision phase applied to every agent of
one world after integration; each detected colliding agent gets the
configured policy applied, all others are left unchanged. -/
noncomputable def collidePhase (pr : Parameters) (roads : List RoadObject)
    (agents : List Agent) : List Agent :=
  mapWithIndexFrom
    (fun i a => if collidesNow roads agents i then applyPolicy pr a else a)
    0 agents

/- ### World stepper -/

/-- Modelled from the spec: one `step()` of a single world: integrate,
then detect collisions and apply the policy, then advance the step
counter.  Observations and rewards are derived views over the resulting
state, computed on demand. -/
noncomputable def stepWorld (pr : Parameters) (acts : List (Option Action))
    (w : World) : World :=
  { agents := collidePhase pr w.roads (integratePhase pr w.steps acts w.agents)
    roads := w.roads
    steps := w.steps + 1 }

/-- Iterated stepping, with a per-step action buffer. -/
noncomputable def stepN (pr : Parameters) (acts : Nat → List (Option Action)) :
    Nat → World → World
  | 0, w => w
  | n + 1, w => stepWorld pr (acts n) (stepN pr acts n w)

/-- Modelled from the spec: `reset(worldIndex)` reloads the initial Agent
and RoadObject state of the indexed world from its Scene and zeroes its
step counter, leaving every other world unchanged; an out-of-range index
performs no state mutation. -/
def Sim.reset (sim : Sim) (w : Nat) : Sim :=
  match sim.scenes.get? w with
  | some sc => { sim with worlds := sim.worlds.set w (initWorld sc) }
  | none => sim

/- ### Reward engine -/

/-- Euclidean distance between two positions. -/
noncomputable def distTo (p q : Vec2) : ℝ := Real.sqrt (distSqR p q)

/-- Modelled from the spec: the bonus term gated by
distanceToExpertThreshold in the Dense scheme; its magnitude is not
stated in the available sources. -/
def denseGateBonus : ℝ := 1

open Classical in
/-- Modelled from the spec: the per-agent per-step scalar reward of the
missing reward engine, computed strictly from the current
(post-integration, post-collision) state.  Invalid or removed agents
receive reward 0.  DistanceBased is the negative distance from current
position to goal; OnGoalAchieved is 1 if the distance to goal is at most
distanceToGoalThreshold and 0 otherwise; Dense is the negative distance
to the expert-trajectory position of the same timestep with a gated
bonus term. -/
noncomputable def computeReward (pr : Parameters) (t : Nat) (a : Agent) : ℝ :=
  if a.valid = false then 0
  else
    match pr.rewardParams.rewardType with
    | RewardType.DistanceBased => -(distTo a.pos a.goal)
    | RewardType.OnGoalAchieved =>
        if distTo a.pos a.goal ≤ pr.rewardParams.distanceToGoalThreshold
        then 1 else 0
    | RewardType.Dense =>
        match a.traj.get? t with
        | some e =>
            -(distTo a.pos e.pos) +
              (if distTo a.pos e.pos ≤ pr.rewardParams.distanceToExpertThreshold
               then denseGateBonus else 0)
        | none => 0

/-- Modelled from the spec: the reward buffer entry of agent slot `i` of
a world, derived on demand from the current world state; an out-of-range
slot reads 0. -/
noncomputable def rewardOf (pr : Parameters) (w : World) (i : Nat) : ℝ :=
  match w.agents.get? i with
  | some a => computeReward pr w.steps a
  | none => 0

/- ### Observation builder -/

/-- Modelled from the spec: the Self observation of one agent, the
six-value layout documented in the notebook: speed, length, width,
goal-relative x and y, collision state. -/
noncomputable def selfObs (a : Agent) : List ℝ :=
  [a.speed, a.length, a.width, a.goal.x - a.pos.x, a.goal.y - a.pos.y,
   if a.collided = true then 1 else 0]

/-- Modelled from the spec: the absolute self observation of one agent:
its world-frame position, heading and speed. -/
noncomputable def absSelfObs (a : Agent) : List ℝ :=
  [a.pos.x, a.pos.y, a.heading, a.speed]

/-- Modelled from the spec: one entry of the Partner observation view:
speed, relative position, orientation, dimensions and type of a
neighboring agent. -/
structure PartnerEntry where
  speed : ℝ
  relX : ℝ
  relY : ℝ
  orientationOf : ℝ
  dimLength : ℝ
  dimWidth : ℝ
  type : EntityType

/-- The zero-filled partner entry with the invalid `NoneType` type, used
for removed or out-of-radius agents. -/
def noneEntry : PartnerEntry :=
  { speed := 0, relX := 0, relY := 0, orientationOf := 0, dimLength := 0,
    dimWidth := 0, type := EntityType.NoneType }

/-- The zero-filled partner entry with the dedicated `Padding` type, used
for slots inserted to fill capacity. -/
def paddingEntry : PartnerEntry :=
  { speed := 0, relX := 0, relY := 0, orientationOf := 0, dimLength := 0,
    dimWidth := 0, type := EntityType.Padding }

open Classical in
/-- Modelled from the spec: the Partner observation entry an ego agent
gets for another agent: the relative state when that agent is valid and
within observationRadius, and the zero-filled `NoneType` entry
otherwise. -/
noncomputable def partnerEntry (pr : Parameters) (ego b : Agent) : PartnerEntry :=
  if b.valid = true ∧ distSqR ego.pos b.pos ≤ pr.observationRadius ^ 2 then
    { speed := b.speed
      relX := b.pos.x - ego.pos.x
      relY := b.pos.y - ego.pos.y
      orientationOf := b.heading - ego.heading
      dimLength := b.length
      dimWidth := b.width
      type := b.type }
  else noneEntry

/-- Modelled from the spec: the Partner observation view of the ego agent
at slot `egoIdx`, over a fixed agent capacity of `cap` slots: one entry
per non-ego slot, with `Padding` entries for slots beyond the agent
list, so the view always has `cap - 1` entries. -/
noncomputable def partnerObs (pr : Parameters) (cap : Nat)
    (agents : List Agent) (egoIdx : Nat) (ego : Agent) : List PartnerEntry :=
  ((List.range cap).filter (fun j => j ≠ egoIdx)).map
    (fun j =>
      match agents.get? j with
      | some b => partnerEntry pr ego b
      | none => paddingEntry)

/-- Modelled from the spec: one entry of the Map observation view, the
eight-value layout documented in the notebook: position, scale, heading,
type and road id of a map object. -/
structure MapEntry where
  posX : ℝ
  posY : ℝ
  scaleL : ℝ
  scaleW : ℝ
  scaleH : ℝ
  heading : ℝ
  type : EntityType
  roadId : Int

/-- The zero-filled map entry with the invalid `NoneType` type. -/
def noneMapEntry : MapEntry :=
  { posX := 0, posY := 0, scaleL := 0, scaleW := 0, scaleH := 0, heading := 0,
    type := EntityType.NoneType, roadId := 0 }

/-- The zero-filled map entry with the dedicated `Padding` type. -/
def paddingMapEntry : MapEntry :=
  { posX := 0, posY := 0, scaleL := 0, scaleW := 0, scaleH := 0, heading := 0,
    type := EntityType.Padding, roadId := 0 }

open Classical in
/-- Modelled from the spec: the Map observation entry an ego agent gets
for one road object: its data when within observationRadius, zero-filled
`NoneType` otherwise. -/
noncomputable def mapEntryFor (pr : Parameters) (ego : Agent)
    (r : RoadObject) : MapEntry :=
  if distSqR ego.pos r.pos ≤ pr.observationRadius ^ 2 then
    { posX := r.pos.x, posY := r.pos.y, scaleL := r.scaleLength,
      scaleW := r.scaleWidth, scaleH := r.scaleHeight, heading := r.heading,
      type := r.type, roadId := r.roadId }
  else noneMapEntry

/-- Modelled from the spec: the per-agent map/road observation view over
a fixed road capacity of `rcap` slots, with `Padding` entries for slots
beyond the road list, so the view always has `rcap` entries. -/
noncomputable def agentMapObs (pr : Parameters) (rcap : Nat)
    (roads : List RoadObject) (ego : Agent) : List MapEntry :=
  (List.range rcap).map
    (fun j =>
      match roads.get? j with
      | some r => mapEntryFor pr ego r
      | none => paddingMapEntry)

/- ### Shape buffer -/

/-- The number of valid agents of a world. -/
def validAgentCount (w : World) : Nat :=
  (w.agents.filter (fun a => a.valid)).length

/-- The number of road objects of a world. -/
def roadObjectCount (w : World) : Nat := w.roads.length

/-- Modelled from the spec: the per-world entry of the exported shape
buffer: the valid-agent count and the road-object count. -/
def shapeOf (w : World) : Nat × Nat := (validAgentCount w, roadObjectCount w)

/-- The configured agent capacity of a world: the fixed size of its agent
slot list. -/
def agentCapacity (w : World) : Nat := w.agents.length

/- ### Road-graph simplifier (Visvalingam-Whyatt) -/

/-- A polyline vertex, over the rationals so that the load-time
simplifier stays executable. -/
structure QPoint where
  x : ℚ
  y : ℚ
  deriving DecidableEq, Repr

/-- Twice-normalized triangular area of the triangle spanned by three
vertices (half the absolute cross product). -/
def triArea (p q r : QPoint) : ℚ :=
  |(q.x - p.x) * (r.y - p.y) - (r.x - p.x) * (q.y - p.y)| / 2

/-- The triangular areas of the interior vertices of a polyline, each
formed with its two neighbors; endpoints carry no area. -/
def interiorAreas : List QPoint → List ℚ
  | p :: q :: r :: rest => triArea p q r :: interiorAreas (q :: r :: rest)
  | _ => []

/-- Index and value of the first minimal element of a list. -/
def idxOfMin : List ℚ → Option (Nat × ℚ)
  | [] => none
  | a :: rest =>
    match idxOfMin rest with
    | none => some (0, a)
    | some (j, m) => if a ≤ m then some (0, a) else some (j + 1, m)

/-- Modelled from the spec: the Visvalingam-Whyatt reduction loop of the
missing road-graph simplifier, written with an explicit fuel bound of
the vertex count (each pass removes one vertex, so the fuel never runs
out before the stopping condition): while the smallest interior
triangular area is below the area threshold, remove the first vertex
attaining it, recomputing neighbor areas; endpoints are never removed. -/
def vwAux : Nat → ℚ → List QPoint → List QPoint
  | 0, _, poly => poly
  | fuel + 1, areaBound, poly =>
    match idxOfMin (interiorAreas poly) with
    | none => poly
    | some (j, m) =>
        if m < areaBound then vwAux fuel areaBound (poly.eraseIdx (j + 1))
        else poly

/-- Modelled from the spec: the area bound derived from the configured
reduction value in [0,1]; the exact derivation is not stated in the
available sources beyond being monotone with no reduction at 0, modelled
here as the identity scaling. -/
def derivedAreaBound (t : ℚ) : ℚ := t

/-- Modelled from the spec: the Road-Graph Simplifier: reduce an ordered
polyline at a configured reduction threshold. -/
def vwReduce (t : ℚ) (poly : List QPoint) : List QPoint :=
  vwAux poly.length (derivedAreaBound t) poly

/- ### Lemmas about the stepping pipeline -/

theorem integratePhase_get? (pr : Parameters) (t : Nat)
    (acts : List (Option Action)) (agents : List Agent) (i : Nat) :
    (integratePhase pr t acts agents).get? i =
      (agents.get? i).map (integrateAgent pr t ((acts.get? i).getD none)) := by
  unfold integratePhase
  rw [mapWithIndexFrom_get?]
  simp

open Classical in
theorem collidePhase_get? (pr : Parameters) (roads : List RoadObject)
    (agents : List Agent) (i : Nat) :
    (collidePhase pr roads agents).get? i =
      (agents.get? i).map
        (fun a => if collidesNow roads agents i then applyPolicy pr a else a) := by
  unfold collidePhase
  rw [mapWithIndexFrom_get?]
  simp

theorem integrateAgent_invalid (pr : Parameters) (t : Nat)
    (act : Option Action) (a : Agent) (hv : a.valid = false) :
    integrateAgent pr t act a = a := by
  unfold integrateAgent
  rw [if_pos hv]

theorem collidesNow_not_of_invalid (roads : List RoadObject)
    (agents : List Agent) (i : Nat) (a : Agent)
    (ha : agents.get? i = some a) (hv : a.valid = false) :
    ¬ collidesNow roads agents i := by
  intro h
  rcases h with ⟨j, a2, b, ⟨_, ⟨c, hc, hcv⟩, _⟩, _, _, _⟩ |
    ⟨a2, r, ⟨c, hc, hcv⟩, _, _, _⟩ <;>
    · rw [ha] at hc
      cases hc
      rw [hv] at hcv
      exact Bool.false_ne_true hcv

theorem stepWorld_get?_invalid (pr : Parameters) (acts : List (Option Action))
    (w : World) (i : Nat) (a : Agent)
    (ha : w.agents.get? i = some a) (hv : a.valid = false) :
    (stepWorld pr acts w).agents.get? i = some a := by
  have hint : (integratePhase pr w.steps acts w.agents).get? i = some a := by
    rw [integratePhase_get?, ha]
    simp [integrateAgent_invalid pr w.steps _ a hv]
  show (collidePhase pr w.roads (integratePhase pr w.steps acts w.agents)).get? i
      = some a
  rw [collidePhase_get?, hint]
  have hnc := collidesNow_not_of_invalid w.roads
    (integratePhase pr w.steps acts w.agents) i a hint hv
  simp [hnc]

theorem stepN_get?_invalid (pr : Parameters) (acts : Nat → List (Option Action))
    (n : Nat) (w : World) (i : Nat) (a : Agent)
    (ha : w.agents.get? i = some a) (hv : a.valid = false) :
    (stepN pr acts n w).agents.get? i = some a := by
  induction n with
  | zero => exact ha
  | succ m ih =>
    show (stepWorld pr (acts m) (stepN pr acts m w)).agents.get? i = some a
    exact stepWorld_get?_invalid pr (acts m) (stepN pr acts m w) i a ih hv

theorem applyPolicy_pos (pr : Parameters) (a : Agent) :
    (applyPolicy pr a).pos = a.pos := by
  unfold applyPolicy
  cases pr.collisionBehaviour <;> rfl

theorem applyPolicy_heading (pr : Parameters) (a : Agent) :
    (applyPolicy pr a).heading = a.heading := by
  unfold applyPolicy
  cases pr.collisionBehaviour <;> rfl

theorem stepWorld_agents_length (pr : Parameters) (acts : List (Option Action))
    (w : World) : (stepWorld pr acts w).agents.length = w.agents.length := by
  show (collidePhase pr w.roads (integratePhase pr w.steps acts w.agents)).length
      = w.agents.length
  unfold collidePhase integratePhase
  rw [mapWithIndexFrom_length, mapWithIndexFrom_length]

theorem stepN_agents_length (pr : Parameters) (acts : Nat → List (Option Action))
    (n : Nat) (w : World) :
    (stepN pr acts n w).agents.length = w.agents.length := by
  induction n with
  | zero => rfl
  | succ m ih =>
    show (stepWorld pr (acts m) (stepN pr acts m w)).agents.length
        = w.agents.length
    rw [stepWorld_agents_length, ih]

theorem partnerEntry_invalid (pr : Parameters) (ego b : Agent)
    (hv : b.valid = false) : partnerEntry pr ego b = noneEntry := by
  unfold partnerEntry
  rw [if_neg]
  intro h
  rw [hv] at h
  exact Bool.false_ne_true h.1

/- ### Lemmas about the road-graph simplifier -/

theorem triArea_nonneg (p q r : QPoint) : 0 ≤ triArea p q r := by
  unfold triArea
  positivity

theorem interiorAreas_nonneg (poly : List QPoint) :
    ∀ m ∈ interiorAreas poly, 0 ≤ m := by
  induction poly with
  | nil => intro m hm; simp [interiorAreas] at hm
  | cons p rest ih =>
    intro m hm
    match rest, hm with
    | q :: r :: rest2, hm =>
      rw [interiorAreas] at hm
      rcases List.mem_cons.mp hm with h | h
      · rw [h]; exact triArea_nonneg p q r
      · exact ih m h
    | [], hm => simp [interiorAreas] at hm
    | [q], hm => simp [interiorAreas] at hm

theorem idxOfMin_mem (l : List ℚ) (j : Nat) (m : ℚ)
    (h : idxOfMin l = some (j, m)) : m ∈ l := by
  induction l generalizing j m with
  | nil => simp [idxOfMin] at h
  | cons a rest ih =>
    rw [idxOfMin] at h
    cases hrest : idxOfMin rest with
    | none =>
      rw [hrest] at h
      cases h
      exact List.mem_cons_self a rest
    | some jm =>
      obtain ⟨j2, m2⟩ := jm
      rw [hrest] at h
      dsimp only at h
      by_cases hle : a ≤ m2
      · rw [if_pos hle] at h
        cases h
        exact List.mem_cons_self a rest
      · rw [if_neg hle] at h
        cases h
        exact List.mem_cons_of_mem a (ih j2 m hrest)

theorem eraseIdx_length_le (l : List α) (i : Nat) :
    (l.eraseIdx i).length ≤ l.length := by
  induction l generalizing i with
  | nil => simp [List.eraseIdx]
  | cons a rest ih =>
    cases i with
    | zero => simp [List.eraseIdx]
    | succ j =>
      simp only [List.eraseIdx, List.length_cons]
      exact Nat.succ_le_succ (ih j)

theorem vwAux_length_le (fuel : Nat) (b : ℚ) (poly : List QPoint) :
    (vwAux fuel b poly).length ≤ poly.length := by
  induction fuel generalizing poly with
  | zero => exact Nat.le_refl _
  | succ f ih =>
    rw [vwAux]
    cases h : idxOfMin (interiorAreas poly) with
    | none => exact Nat.le_refl _
    | some jm =>
      obtain ⟨j, m⟩ := jm
      dsimp only
      by_cases hlt : m < b
      · rw [if_pos hlt]
        exact Nat.le_trans (ih (poly.eraseIdx (j + 1)))
          (eraseIdx_length_le poly (j + 1))
      · rw [if_neg hlt]

theorem vwAux_nonpos_bound (fuel : Nat) (b : ℚ) (poly : List QPoint)
    (hb : b ≤ 0) : vwAux fuel b poly = poly := by
  cases fuel with
  | zero => rfl
  | succ f =>
    rw [vwAux]
    cases h : idxOfMin (interiorAreas poly) with
    | none => rfl
    | some jm =>
      obtain ⟨j, m⟩ := jm
      dsimp only
      rw [if_neg]
      intro hlt
      have hm : 0 ≤ m :=
        interiorAreas_nonneg poly m (idxOfMin_mem (interiorAreas poly) j m h)
      exact absurd (lt_of_lt_of_le hlt hb) (not_lt.mpr hm)

theorem vwAux_mono (fuel : Nat) (b1 b2 : ℚ) (poly : List QPoint)
    (hb : b1 ≤ b2) :
    (vwAux fuel b2 poly).length ≤ (vwAux fuel b1 poly).length := by
  induction fuel generalizing poly with
  | zero => exact Nat.le_refl _
  | succ f ih =>
    rw [vwAux, vwAux]
    cases h : idxOfMin (interiorAreas poly) with
    | none => exact Nat.le_refl _
    | some jm =>
      obtain ⟨j, m⟩ := jm
      dsimp only
      by_cases h1 : m < b1
      · rw [if_pos h1, if_pos (lt_of_lt_of_le h1 hb)]
        exact ih (poly.eraseIdx (j + 1))
      · rw [if_neg h1]
        by_cases h2 : m < b2
        · rw [if_pos h2]
          exact Nat.le_trans (vwAux_length_le f b2 (poly.eraseIdx (j + 1)))
            (eraseIdx_length_le poly (j + 1))
        · rw [if_neg h2]

theorem vwReduce_zero (poly : List QPoint) : vwReduce 0 poly = poly :=
  vwAux_nonpos_bound poly.length (derivedAreaBound 0) poly (le_refl 0)

theorem vwReduce_mono (t1 t2 : ℚ) (poly : List QPoint) (h : t1 ≤ t2) :
    (vwReduce t2 poly).length ≤ (vwReduce t1 poly).length :=
  vwAux_mono poly.length (derivedAreaBound t1) (derivedAreaBound t2) poly h

/- ### Observation shape lemmas -/

theorem filter_ne_range_length (cap i : Nat) (hi : i < cap) :
    (((List.range cap).filter (fun j => j ≠ i))).length = cap - 1 := by
  induction cap with
  | zero => omega
  | succ n ih =>
    rw [List.range_succ, List.filter_append]
    by_cases h : i < n
    · have hn : (List.filter (fun j => j ≠ i) [n]).length = 1 := by
        have : n ≠ i := by omega
        simp [this]
      rw [List.length_append, ih h, hn]
      omega
    · have hieq : i = n := by omega
      subst hieq
      have hall : (List.range i).filter (fun j => j ≠ i) = List.range i := by
        apply List.filter_eq_self.mpr
        intro a ha
        have : a < i := List.mem_range.mp ha
        simp
        omega
      have hlast : (List.filter (fun j => j ≠ i) [i]).length = 0 := by simp
      rw [List.length_append, hall, hlast, List.length_range]
      omega

/- ### Source-recorded configuration values -/

/-- Modelled from the spec: the names of the three reward schemes the
specification admits for the core reward engine. -/
def coreRewardSchemeNames : List String :=
  ["DistanceBased", "OnGoalAchieved", "Dense"]

/-- The reward scheme selected by the repository training configuration
(the reward_type key of the PPO configuration file). -/
def trainConfigRewardType : String := "weighted_combination"

/- ### Sample concrete states used by witnesses -/

/-- A concrete valid controlled vehicle at the origin with a goal 10
units away and an empty trajectory. -/
def sampleAgentA : Agent :=
  { pos := { x := 0, y := 0 }, heading := 0, speed := 0, length := 1,
    width := 1, type := EntityType.Vehicle, goal := { x := 10, y := 0 },
    valid := true, controlled := true, collided := false, done := false,
    traj := [] }

/- ### Claims -/

/-- Claim C10: a default-constructed Parameters object has
collisionBehaviour AgentStop, dynamicsModel Classic, observationRadius
0.0, polylineReductionThreshold 0.0, maxNumControlledAgents 10000,
isStaticAgentControlled false, enableLidar false, disableClassicalObs
false, and reward parameters rewardType DistanceBased with
distanceToGoalThreshold 0.0 and distanceToExpertThreshold 0.0. -/
theorem c10_default_parameters :
    defaultParameters.collisionBehaviour = CollisionBehaviour.AgentStop ∧
    defaultParameters.dynamicsModel = DynamicsModel.Classic ∧
    defaultParameters.observationRadius = 0 ∧
    defaultParameters.polylineReductionThreshold = 0 ∧
    defaultParameters.maxNumControlledAgents = 10000 ∧
    defaultParameters.isStaticAgentControlled = false ∧
    defaultParameters.enableLidar = false ∧
    defaultParameters.disableClassicalObs = false ∧
    defaultParameters.rewardParams.rewardType = RewardType.DistanceBased ∧
    defaultParameters.rewardParams.distanceToGoalThreshold = 0 ∧
    defaultParameters.rewardParams.distanceToExpertThreshold = 0 :=
  ⟨rfl, rfl, rfl, rfl, rfl, rfl, rfl, rfl, rfl, rfl, rfl⟩

/-- Claim C9: for every world and at every step, the valid-agent count
reported by the shape buffer is at most the configured agent capacity of
the world, which stepping never changes. -/
theorem c9_valid_count_le_capacity (pr : Parameters)
    (acts : Nat → List (Option Action)) (n : Nat) (w : World) :
    (shapeOf (stepN pr acts n w)).1 ≤ agentCapacity w ∧
    agentCapacity (stepN pr acts n w) = agentCapacity w := by
  constructor
  · calc (shapeOf (stepN pr acts n w)).1
        ≤ (stepN pr acts n w).agents.length :=
          List.length_filter_le _ _
      _ = w.agents.length := stepN_agents_length pr acts n w
  · exact stepN_agents_length pr acts n w

/-- Claim C8: for every polyline, the Road-Graph Simplifier at reduction
threshold 0 returns the input unchanged (hence is idempotent at 0), and
the output vertex count is monotonically non-increasing in the reduction
threshold over [0,1]. -/
theorem c8_vw_identity_monotone (poly : List QPoint) :
    vwReduce 0 poly = poly ∧
    vwReduce 0 (vwReduce 0 poly) = vwReduce 0 poly ∧
    (∀ t1 t2 : ℚ, 0 ≤ t1 → t1 ≤ t2 → t2 ≤ 1 →
      (vwReduce t2 poly).length ≤ (vwReduce t1 poly).length) := by
  refine ⟨vwReduce_zero poly, ?_, ?_⟩
  · rw [vwReduce_zero poly]
    exact vwReduce_zero poly
  · intro t1 t2 _ h12 _
    exact vwReduce_mono t1 t2 poly h12

/-- Witness for C8 at a concrete polyline and the thresholds 0 and 1. -/
theorem c8_witness :
    vwReduce 0 [⟨0, 0⟩, ⟨1, 1⟩, ⟨2, 0⟩] = [⟨0, 0⟩, ⟨1, 1⟩, ⟨2, 0⟩] ∧
    (vwReduce 1 [(⟨0, 0⟩ : QPoint), ⟨1, 1⟩, ⟨2, 0⟩]).length ≤
      (vwReduce 0 [(⟨0, 0⟩ : QPoint), ⟨1, 1⟩, ⟨2, 0⟩]).length := by
  have h := c8_vw_identity_monotone [⟨0, 0⟩, ⟨1, 1⟩, ⟨2, 0⟩]
  exact ⟨h.1, h.2.2 0 1 (by norm_num) (by norm_num) (by norm_num)⟩

/-- Counterexample for C7: the reward scheme the repository training
configuration selects is not one of the three core schemes, refuting
that the configured reward scheme is always one of DistanceBased,
OnGoalAchieved and Dense. -/
theorem c7_counterexample :
    trainConfigRewardType ∉ coreRewardSchemeNames := by
  decide

/-- Claim C7 (amended): the core RewardType enumeration offers exactly
the three schemes DistanceBased, OnGoalAchieved and Dense, but the
repository also selects the non-core scheme weighted_combination in its
training configuration, which is not among the three and is not
rejected. -/
theorem c7_reward_scheme_amended :
    (∀ r : RewardType, r = RewardType.DistanceBased ∨
      r = RewardType.OnGoalAchieved ∨ r = RewardType.Dense) ∧
    trainConfigRewardType ∉ coreRewardSchemeNames := by
  constructor
  · intro r
    cases r
    · exact Or.inl rfl
    · exact Or.inr (Or.inl rfl)
    · exact Or.inr (Or.inr rfl)
  · decide

/-- Claim C3: each per-agent observation view has a fixed size
determined only by the capacity configuration (cap - 1 partner slots,
rcap map slots, 6 self values), independent of the agent and road lists
and hence stable across steps and across worlds sharing the capacities;
and the dedicated Padding type is distinct from the invalid NoneType
type. -/
theorem c3_fixed_obs_shapes (pr : Parameters) (cap rcap : Nat)
    (agents : List Agent) (roads : List RoadObject) (egoIdx : Nat)
    (ego a : Agent) (hi : egoIdx < cap) :
    (partnerObs pr cap agents egoIdx ego).length = cap - 1 ∧
    (agentMapObs pr rcap roads ego).length = rcap ∧
    (selfObs a).length = 6 ∧
    EntityType.Padding ≠ EntityType.NoneType := by
  refine ⟨?_, ?_, rfl, by decide⟩
  · unfold partnerObs
    rw [List.length_map]
    exact filter_ne_range_length cap egoIdx hi
  · unfold agentMapObs
    rw [List.length_map, List.length_range]

/-- Witness for C3 at capacity 2, road capacity 3 and ego slot 0. -/
theorem c3_witness :
    (partnerObs defaultParameters 2 [] 0 sampleAgentA).length = 2 - 1 ∧
    (agentMapObs defaultParameters 3 [] sampleAgentA).length = 3 ∧
    (selfObs sampleAgentA).length = 6 ∧
    EntityType.Padding ≠ EntityType.NoneType :=
  c3_fixed_obs_shapes defaultParameters 2 3 [] [] 0 sampleAgentA sampleAgentA
    (by decide)

/-- A concrete agent that is invalid (as after removal by collision). -/
def sampleAgentInvalid : Agent := { sampleAgentA with valid := false }

/-- A concrete parameter set with the AgentRemoved collision policy. -/
def prRemoved : Parameters :=
  { defaultParameters with
    collisionBehaviour := CollisionBehaviour.AgentRemoved }

/-- A concrete one-agent world holding the invalid agent. -/
def sampleWorldInv : World :=
  { agents := [sampleAgentInvalid], roads := [], steps := 0 }

/-- A concrete Scene and a drifted Sim used by the reset witness. -/
def sampleScene0 : Scene := { initAgents := [sampleAgentA], initRoads := [] }

/-- A second concrete Scene. -/
def sampleScene1 : Scene := { initAgents := [], initRoads := [] }

/-- A concrete two-world simulator whose worlds have drifted from their
Scenes. -/
def sampleSim : Sim :=
  { scenes := [sampleScene0, sampleScene1]
    worlds := [{ agents := [], roads := [], steps := 7 },
               { agents := [sampleAgentInvalid], roads := [], steps := 3 }] }

/-- Claim C6: resetting world w reloads its Agent and RoadObject state
exactly from its Scene with a zeroed step counter (so the absolute self
observation right after reset reproduces the initial agent states
bit-for-bit), while every other world is unchanged. -/
theorem c6_reset_restores (sim : Sim) (w : Nat) (sc : Scene)
    (hs : sim.scenes.get? w = some sc) (hw : w < sim.worlds.length) :
    (sim.reset w).worlds.get? w = some (initWorld sc) ∧
    (initWorld sc).agents = sc.initAgents ∧
    (initWorld sc).roads = sc.initRoads ∧
    (initWorld sc).steps = 0 ∧
    ((sim.reset w).worlds.get? w).map (fun wd => wd.agents.map absSelfObs) =
      some (sc.initAgents.map absSelfObs) ∧
    (∀ v, v ≠ w → (sim.reset w).worlds.get? v = sim.worlds.get? v) := by
  have hres : (sim.reset w).worlds = sim.worlds.set w (initWorld sc) := by
    unfold Sim.reset
    rw [hs]
  have h1 : (sim.reset w).worlds.get? w = some (initWorld sc) := by
    rw [hres]
    exact listSet_get?_self sim.worlds w (initWorld sc) hw
  refine ⟨h1, rfl, rfl, rfl, ?_, ?_⟩
  · rw [h1]
    rfl
  · intro v hv
    rw [hres]
    exact listSet_get?_ne sim.worlds w v (initWorld sc) hv

/-- Witness for C6: resetting world 0 of the drifted sample simulator. -/
theorem c6_witness :
    (sampleSim.reset 0).worlds.get? 0 = some (initWorld sampleScene0) ∧
    (initWorld sampleScene0).agents = sampleScene0.initAgents ∧
    (initWorld sampleScene0).roads = sampleScene0.initRoads ∧
    (initWorld sampleScene0).steps = 0 ∧
    ((sampleSim.reset 0).worlds.get? 0).map
        (fun wd => wd.agents.map absSelfObs) =
      some (sampleScene0.initAgents.map absSelfObs) ∧
    (∀ v, v ≠ 0 → (sampleSim.reset 0).worlds.get? v = sampleSim.worlds.get? v) :=
  c6_reset_restores sampleSim 0 sampleScene0 rfl (by decide)

/-- Claim C4: under the AgentRemoved policy, an agent whose validity flag
is false keeps that flag (indeed its whole state) frozen at every
subsequent step, is on no checked collision pair in either role, reads
reward 0, and contributes only the NoneType entry to any partner
observation. -/
theorem c4_removed_stays_removed (pr : Parameters)
    (acts : Nat → List (Option Action)) (n : Nat) (w : World) (i : Nat)
    (a : Agent)
    (_hp : pr.collisionBehaviour = CollisionBehaviour.AgentRemoved)
    (ha : w.agents.get? i = some a) (hv : a.valid = false) :
    (stepN pr acts n w).agents.get? i = some a ∧
    (∀ j, ¬ checkedPair (stepN pr acts n w).agents i j) ∧
    (∀ j, ¬ checkedPair (stepN pr acts n w).agents j i) ∧
    rewardOf pr (stepN pr acts n w) i = 0 ∧
    (∀ ego, partnerEntry pr ego a = noneEntry) := by
  have hfr := stepN_get?_invalid pr acts n w i a ha hv
  refine ⟨hfr, ?_, ?_, ?_, fun ego => partnerEntry_invalid pr ego a hv⟩
  · rintro j ⟨hne, ⟨b, hb, hbv⟩, hvj⟩
    rw [hfr] at hb
    cases hb
    rw [hv] at hbv
    exact Bool.false_ne_true hbv
  · rintro j ⟨hne, hvj, ⟨b, hb, hbv⟩⟩
    rw [hfr] at hb
    cases hb
    rw [hv] at hbv
    exact Bool.false_ne_true hbv
  · unfold rewardOf
    rw [hfr]
    dsimp only
    unfold computeReward
    rw [if_pos hv]

/-- Witness for C4: the frozen invalid agent of the sample world after
two steps under the AgentRemoved policy. -/
theorem c4_witness :
    (stepN prRemoved (fun _ => []) 2 sampleWorldInv).agents.get? 0 =
      some sampleAgentInvalid ∧
    (∀ j, ¬ checkedPair (stepN prRemoved (fun _ => []) 2 sampleWorldInv).agents
      0 j) ∧
    (∀ j, ¬ checkedPair (stepN prRemoved (fun _ => []) 2 sampleWorldInv).agents
      j 0) ∧
    rewardOf prRemoved (stepN prRemoved (fun _ => []) 2 sampleWorldInv) 0 = 0 ∧
    (∀ ego, partnerEntry prRemoved ego sampleAgentInvalid = noneEntry) :=
  c4_removed_stays_removed prRemoved (fun _ => []) 2 sampleWorldInv 0
    sampleAgentInvalid rfl rfl rfl

/- ### Replay-path lemmas -/

theorem integrateAgent_replay (pr : Parameters) (t : Nat) (act : Option Action)
    (a : Agent) (hv : a.valid = true)
    (hrep : a.controlled = false ∨
      (act = none ∧ pr.isStaticAgentControlled = false)) :
    integrateAgent pr t act a = replayStep t a := by
  have hnv : ¬ a.valid = false := by
    rw [hv]
    decide
  have hcond : ¬ (a.controlled = true ∧
      (act.isSome = true ∨ pr.isStaticAgentControlled = true)) := by
    rintro ⟨h1, h2⟩
    rcases hrep with hcf | ⟨hn, hs⟩
    · rw [hcf] at h1
      exact Bool.false_ne_true h1
    · rcases h2 with h2 | h2
      · rw [hn] at h2
        exact Bool.false_ne_true h2
      · rw [hs] at h2
        exact Bool.false_ne_true h2
  unfold integrateAgent
  rw [if_neg hnv, if_neg hcond]

theorem get?_some_lt (l : List α) (n : Nat) (a : α) (h : l.get? n = some a) :
    n < l.length := by
  induction l generalizing n with
  | nil => cases h
  | cons b rest ih =>
    cases n with
    | zero => exact Nat.succ_pos _
    | succ m => exact Nat.succ_lt_succ (ih m h)

theorem collidesNow_short (roads : List RoadObject) (agents : List Agent)
    (h1 : agents.length ≤ 1) (hr : roads = []) (i : Nat) :
    ¬ collidesNow roads agents i := by
  rintro (⟨j, a2, b, ⟨hne, hvi, hvj⟩, hi, hj, _⟩ | ⟨a2, r, _, _, hmem, _⟩)
  · have hi1 := get?_some_lt agents i a2 hi
    have hj1 := get?_some_lt agents j b hj
    omega
  · rw [hr] at hmem
    exact absurd hmem (List.not_mem_nil r)

open Classical in
/-- The collision phase never moves an agent: the policy update keeps the
position. -/
theorem collideUpdate_pos (pr : Parameters) (c : Prop) (b : Agent) :
    (if c then applyPolicy pr b else b).pos = b.pos := by
  split
  · exact applyPolicy_pos pr b
  · rfl

open Classical in
/-- The collision phase never turns an agent: the policy update keeps the
heading. -/
theorem collideUpdate_heading (pr : Parameters) (c : Prop) (b : Agent) :
    (if c then applyPolicy pr b else b).heading = b.heading := by
  split
  · exact applyPolicy_heading pr b
  · rfl

/-- If the single agent of a one-agent, road-free world is frozen by the
integrator, the whole step leaves it untouched. -/
theorem stepWorld_single_frozen (pr : Parameters) (w : World) (a : Agent)
    (hw : w.agents = [a]) (hroads : w.roads = [])
    (hbeh : integrateAgent pr w.steps none a = a) :
    (stepWorld pr [] w).agents.get? 0 = some a := by
  have hint : (integratePhase pr w.steps [] w.agents).get? 0 = some a := by
    rw [integratePhase_get?, hw]
    simp [hbeh]
  have hlen : (integratePhase pr w.steps [] w.agents).length ≤ 1 := by
    unfold integratePhase
    rw [mapWithIndexFrom_length, hw]
    exact Nat.le_refl 1
  have hnc := collidesNow_short w.roads
    (integratePhase pr w.steps [] w.agents) hlen hroads 0
  show (collidePhase pr w.roads (integratePhase pr w.steps [] w.agents)).get? 0
      = some a
  rw [collidePhase_get?, hint]
  simp [hnc]

/-- Claim C5: a valid agent on the replay path (uncontrolled, or
controlled with no action while isStaticAgentControlled disables
control) has its position, heading and speed overwritten by the
integrator from the trajectory entry of the matching timestep, so its
post-step position and heading equal that entry; with the trajectory
exhausted, or the agent invalid, the integrator freezes its state. -/
theorem c5_replay_overwrites (pr : Parameters) (acts : List (Option Action))
    (w : World) (i : Nat) (a : Agent) (ha : w.agents.get? i = some a) :
    (∀ e, a.valid = true →
      (a.controlled = false ∨
        ((acts.get? i).getD none = none ∧ pr.isStaticAgentControlled = false)) →
      a.traj.get? w.steps = some e →
      (integratePhase pr w.steps acts w.agents).get? i =
        some { a with pos := e.pos, heading := e.heading, speed := e.speed } ∧
      ((stepWorld pr acts w).agents.get? i).map Agent.pos = some e.pos ∧
      ((stepWorld pr acts w).agents.get? i).map Agent.heading =
        some e.heading) ∧
    (a.valid = true →
      (a.controlled = false ∨
        ((acts.get? i).getD none = none ∧ pr.isStaticAgentControlled = false)) →
      a.traj.get? w.steps = none →
      (integratePhase pr w.steps acts w.agents).get? i = some a) ∧
    (a.valid = false →
      (integratePhase pr w.steps acts w.agents).get? i = some a) := by
  refine ⟨?_, ?_, ?_⟩
  · intro e hv hrep he
    have hrw : integrateAgent pr w.steps ((acts.get? i).getD none) a =
        { a with pos := e.pos, heading := e.heading, speed := e.speed } := by
      rw [integrateAgent_replay pr w.steps _ a hv hrep]
      unfold replayStep
      rw [he]
    have hint : (integratePhase pr w.steps acts w.agents).get? i =
        some { a with pos := e.pos, heading := e.heading, speed := e.speed } := by
      rw [integratePhase_get?, ha]
      exact congrArg some hrw
    refine ⟨hint, ?_, ?_⟩
    · show ((collidePhase pr w.roads
          (integratePhase pr w.steps acts w.agents)).get? i).map Agent.pos =
        some e.pos
      rw [collidePhase_get?, hint]
      exact congrArg some (collideUpdate_pos pr _ _)
    · show ((collidePhase pr w.roads
          (integratePhase pr w.steps acts w.agents)).get? i).map
          Agent.heading = some e.heading
      rw [collidePhase_get?, hint]
      exact congrArg some (collideUpdate_heading pr _ _)
  · intro hv hrep he
    have hrw : integrateAgent pr w.steps ((acts.get? i).getD none) a = a := by
      rw [integrateAgent_replay pr w.steps _ a hv hrep]
      unfold replayStep
      rw [he]
    rw [integratePhase_get?, ha]
    exact congrArg some hrw
  · intro hv
    rw [integratePhase_get?, ha]
    exact congrArg some (integrateAgent_invalid pr w.steps _ a hv)

/-- A concrete recorded trajectory entry. -/
def sampleTrajEntry : TrajEntry :=
  { pos := { x := 1, y := 2 }, heading := 0, speed := 3 }

/-- A concrete valid uncontrolled replay agent with a one-entry
trajectory. -/
def sampleAgentReplay : Agent :=
  { sampleAgentA with controlled := false, traj := [sampleTrajEntry] }

/-- A concrete one-agent world holding the replay agent at step 0. -/
def sampleWorldReplay : World :=
  { agents := [sampleAgentReplay], roads := [], steps := 0 }

/-- The sample replay agent after the trajectory overwrite. -/
def sampleAgentReplayed : Agent :=
  { sampleAgentReplay with
    pos := sampleTrajEntry.pos
    heading := sampleTrajEntry.heading
    speed := sampleTrajEntry.speed }

/-- Witness for C5: the replay agent of the sample world is overwritten
from its trajectory entry. -/
theorem c5_witness :
    (integratePhase defaultParameters sampleWorldReplay.steps []
        sampleWorldReplay.agents).get? 0 = some sampleAgentReplayed ∧
    ((stepWorld defaultParameters [] sampleWorldReplay).agents.get? 0).map
      Agent.pos = some sampleTrajEntry.pos ∧
    ((stepWorld defaultParameters [] sampleWorldReplay).agents.get? 0).map
      Agent.heading = some sampleTrajEntry.heading :=
  (c5_replay_overwrites defaultParameters [] sampleWorldReplay 0
    sampleAgentReplay rfl).1 sampleTrajEntry rfl (Or.inl rfl) rfl

/- ### Reward claims -/

/-- A concrete one-agent world holding the valid controlled agent at
distance 10 from its goal. -/
def sampleWorldA : World :=
  { agents := [sampleAgentA], roads := [], steps := 0 }

/-- Stepping the sample world with no action leaves its single agent
frozen (the controlled agent falls back to the replay path and its
trajectory is empty). -/
theorem stepWorld_sampleWorldA (pr : Parameters)
    (hs : pr.isStaticAgentControlled = false) :
    (stepWorld pr [] sampleWorldA).agents.get? 0 = some sampleAgentA := by
  apply stepWorld_single_frozen pr sampleWorldA sampleAgentA rfl rfl
  rw [integrateAgent_replay pr sampleWorldA.steps none sampleAgentA rfl
    (Or.inr ⟨rfl, hs⟩)]
  rfl

/-- Claim C1 (amended): for every valid controlled agent, under the
DistanceBased scheme the per-step reward on the post-integration,
post-collision state equals the negative Euclidean distance from the
agent position to its goal. -/
theorem c1_distance_reward (pr : Parameters) (acts : List (Option Action))
    (w : World) (i : Nat) (a : Agent)
    (hr : pr.rewardParams.rewardType = RewardType.DistanceBased)
    (ha : (stepWorld pr acts w).agents.get? i = some a)
    (_hc : a.controlled = true) (hv : a.valid = true) :
    rewardOf pr (stepWorld pr acts w) i = -(distTo a.pos a.goal) := by
  unfold rewardOf
  rw [ha]
  dsimp only
  unfold computeReward
  rw [if_neg (by rw [hv]; decide), hr]

/-- Counterexample for C1: a controlled agent whose validity flag is
cleared (as after removal) sits at distance 10 from its goal, yet its
per-step reward is 0, not -10. -/
theorem c1_counterexample :
    defaultParameters.rewardParams.rewardType = RewardType.DistanceBased ∧
    sampleAgentInvalid.controlled = true ∧
    (stepWorld defaultParameters [] sampleWorldInv).agents.get? 0 =
      some sampleAgentInvalid ∧
    distTo sampleAgentInvalid.pos sampleAgentInvalid.goal = 10 ∧
    rewardOf defaultParameters (stepWorld defaultParameters [] sampleWorldInv)
      0 = 0 ∧
    (0 : ℝ) ≠ -10 := by
  have hstep : (stepWorld defaultParameters [] sampleWorldInv).agents.get? 0 =
      some sampleAgentInvalid :=
    stepWorld_get?_invalid defaultParameters [] sampleWorldInv 0
      sampleAgentInvalid rfl rfl
  refine ⟨rfl, rfl, hstep, ?_, ?_, by norm_num⟩
  · have h100 : distSqR sampleAgentInvalid.pos sampleAgentInvalid.goal =
        100 := by
      simp only [sampleAgentInvalid, sampleAgentA, distSqR]
      norm_num
    unfold distTo
    rw [h100, show (100 : ℝ) = 10 ^ 2 by norm_num,
      Real.sqrt_sq (by norm_num : (0 : ℝ) ≤ 10)]
  · unfold rewardOf
    rw [hstep]
    dsimp only
    unfold computeReward
    rw [if_pos (show sampleAgentInvalid.valid = false from rfl)]

/-- Witness for C1 (amended): the frozen valid controlled agent at
distance 10 reads reward -10 after the step. -/
theorem c1_witness :
    rewardOf defaultParameters (stepWorld defaultParameters [] sampleWorldA)
      0 = -10 := by
  have h := c1_distance_reward defaultParameters [] sampleWorldA 0 sampleAgentA
    rfl (stepWorld_sampleWorldA defaultParameters rfl) rfl rfl
  rw [h]
  have h100 : distSqR sampleAgentA.pos sampleAgentA.goal = 100 := by
    simp only [sampleAgentA, distSqR]
    norm_num
  unfold distTo
  rw [h100, show (100 : ℝ) = 10 ^ 2 by norm_num,
    Real.sqrt_sq (by norm_num : (0 : ℝ) ≤ 10)]

/-- A concrete parameter set with the OnGoalAchieved scheme and goal
threshold 1. -/
def prOnGoal : Parameters :=
  { defaultParameters with
    rewardParams := { rewardType := RewardType.OnGoalAchieved
                      distanceToGoalThreshold := 1
                      distanceToExpertThreshold := 0 } }

/-- A concrete invalid controlled agent sitting exactly on its goal. -/
def sampleAgentInvAtGoal : Agent :=
  { sampleAgentA with valid := false, goal := { x := 0, y := 0 } }

/-- A concrete one-agent world holding the invalid agent at its goal. -/
def sampleWorldInvGoal : World :=
  { agents := [sampleAgentInvAtGoal], roads := [], steps := 0 }

/-- Claim C2 (amended): under the OnGoalAchieved scheme the per-step
reward of a controlled agent is binary, and for a valid agent it is 1
exactly when the distance to the goal is at most
distanceToGoalThreshold. -/
theorem c2_on_goal_binary (pr : Parameters) (acts : List (Option Action))
    (w : World) (i : Nat) (a : Agent)
    (hr : pr.rewardParams.rewardType = RewardType.OnGoalAchieved)
    (ha : (stepWorld pr acts w).agents.get? i = some a)
    (_hc : a.controlled = true) :
    (rewardOf pr (stepWorld pr acts w) i = 0 ∨
      rewardOf pr (stepWorld pr acts w) i = 1) ∧
    (a.valid = true →
      (rewardOf pr (stepWorld pr acts w) i = 1 ↔
        distTo a.pos a.goal ≤ pr.rewardParams.distanceToGoalThreshold)) := by
  have hred : rewardOf pr (stepWorld pr acts w) i =
      computeReward pr (stepWorld pr acts w).steps a := by
    unfold rewardOf
    rw [ha]
  by_cases hv : a.valid = true
  · have hcr : computeReward pr (stepWorld pr acts w).steps a =
        (if distTo a.pos a.goal ≤ pr.rewardParams.distanceToGoalThreshold
         then (1 : ℝ) else 0) := by
      unfold computeReward
      rw [if_neg (by rw [hv]; decide), hr]
    rw [hred, hcr]
    by_cases hle :
        distTo a.pos a.goal ≤ pr.rewardParams.distanceToGoalThreshold
    · rw [if_pos hle]
      exact ⟨Or.inr rfl, fun _ => ⟨fun _ => hle, fun _ => rfl⟩⟩
    · rw [if_neg hle]
      exact ⟨Or.inl rfl,
        fun _ => ⟨fun h01 => absurd h01 (by norm_num),
                  fun hle2 => absurd hle2 hle⟩⟩
  · have hvf : a.valid = false := by
      cases hval : a.valid
      · rfl
      · exact absurd hval hv
    have hcr : computeReward pr (stepWorld pr acts w).steps a = 0 := by
      unfold computeReward
      rw [if_pos hvf]
    rw [hred, hcr]
    exact ⟨Or.inl rfl, fun hvt => absurd hvt hv⟩

/-- Counterexample for C2: a controlled agent whose validity flag is
cleared sits exactly on its goal (distance 0, at most the threshold 1),
yet its per-step reward is 0, not 1. -/
theorem c2_counterexample :
    prOnGoal.rewardParams.rewardType = RewardType.OnGoalAchieved ∧
    sampleAgentInvAtGoal.controlled = true ∧
    (stepWorld prOnGoal [] sampleWorldInvGoal).agents.get? 0 =
      some sampleAgentInvAtGoal ∧
    distTo sampleAgentInvAtGoal.pos sampleAgentInvAtGoal.goal ≤
      prOnGoal.rewardParams.distanceToGoalThreshold ∧
    rewardOf prOnGoal (stepWorld prOnGoal [] sampleWorldInvGoal) 0 ≠ 1 := by
  have hstep := stepWorld_get?_invalid prOnGoal [] sampleWorldInvGoal 0
    sampleAgentInvAtGoal rfl rfl
  refine ⟨rfl, rfl, hstep, ?_, ?_⟩
  · have h0 : distSqR sampleAgentInvAtGoal.pos sampleAgentInvAtGoal.goal =
        0 := by
      simp only [sampleAgentInvAtGoal, sampleAgentA, distSqR]
      norm_num
    unfold distTo
    rw [h0, Real.sqrt_zero]
    show (0 : ℝ) ≤ 1
    norm_num
  · unfold rewardOf
    rw [hstep]
    dsimp only
    unfold computeReward
    rw [if_pos (show sampleAgentInvAtGoal.valid = false from rfl)]
    norm_num

/-- Witness for C2 (amended): the frozen valid controlled agent under
the OnGoalAchieved scheme reads a binary reward that is 1 exactly on
reaching the threshold. -/
theorem c2_witness :
    (rewardOf prOnGoal (stepWorld prOnGoal [] sampleWorldA) 0 = 0 ∨
      rewardOf prOnGoal (stepWorld prOnGoal [] sampleWorldA) 0 = 1) ∧
    (sampleAgentA.valid = true →
      (rewardOf prOnGoal (stepWorld prOnGoal [] sampleWorldA) 0 = 1 ↔
        distTo sampleAgentA.pos sampleAgentA.goal ≤
          prOnGoal.rewardParams.distanceToGoalThreshold)) :=
  c2_on_goal_binary prOnGoal [] sampleWorldA 0 sampleAgentA rfl
    (stepWorld_sampleWorldA prOnGoal rfl) rfl

end GpuDrive
